import Mathlib

/-!
Verification of the automaton repository: a shallow embedding of the
Solana USDC transfer module, the Kora JSON-RPC client, the x402 payment
protocol module and the on-chain registry module, together with proofs
of the behavioural properties stated in the specification.

Conventions of the embedding:
* JavaScript strings are `List Char`; `lc` converts a Lean string literal.
* JavaScript numbers are `ℚ` (exact rational arithmetic stands in for
  IEEE doubles; every claim under study is stated over the numeric
  values themselves, not over rounding artefacts).
* Asynchronous calls to the network (fetch, RPC, chain reads and writes)
  are modelled by an environment record whose fields give the outcome of
  each external call: `Except (List Char) α` is either a resolved value
  or a rejection carrying the thrown message.
* Each operation returns, besides its result, the list of external calls
  it performed, in order, so that claims about which calls happen (and
  in which order) are provable.
-/

def lc (s : String) : List Char := s.data

/-- Substring test: `containsSubstr needle hay` models
JavaScript `hay.includes(needle)`. -/
def containsSubstr (needle hay : List Char) : Bool := decide (needle <:+: hay)

/-- Decimal digits of a natural number, e.g. `500 ↦ "500"`. -/
def natRepr (n : Nat) : List Char := Nat.toDigits 10 n

/-- Decimal rendering of an integer, modelling JavaScript template
interpolation of a number such as `-32600`. -/
def intRepr (n : Int) : List Char :=
  if n < 0 then '-' :: natRepr n.natAbs else natRepr n.natAbs

/-- `respOk s` models the `ok` getter of a fetch `Response`:
true exactly for 2xx statuses. -/
def respOk (s : Nat) : Bool := if 200 ≤ s ∧ s < 300 then true else false

-- ──────────────────────────────────────────────────────────────────
-- Data model shared by the transfer modules (src/unnamed/part_000)
-- ──────────────────────────────────────────────────────────────────

/-- The three Solana networks of the `SolanaNetwork` union type. -/
inductive SolanaNetwork where
  | mainnetBeta
  | devnet
  | testnet
deriving DecidableEq, Repr

/-- The `USDC_MINT` record: lookup is total on the three networks but the
source still guards the lookup, so it is modelled as an `Option`. -/
def USDC_MINT : SolanaNetwork → Option (List Char)
  | .mainnetBeta => some (lc "EPjFWdd5AufqSSqeM2qN1xzybapC8G4wEGGkZwyTDt1v")
  | .devnet => some (lc "4zMMC9srt5Ri5X14GAgXhaHii3GnPAEERYPJgZJDncDU")
  | .testnet => some (lc "4zMMC9srt5Ri5X14GAgXhaHii3GnPAEERYPJgZJDncDU")

/-- Result shape of the transfer operations:
`{ success: boolean; txSignature?: string; error?: string }`. -/
structure TransferResult where
  success : Bool
  txSignature : Option (List Char) := none
  error : Option (List Char) := none
deriving DecidableEq, Repr

/-- Result shape of `getUsdcBalanceDetailed`. -/
structure UsdcBalanceResult where
  balance : ℚ
  network : SolanaNetwork
  ok : Bool
  error : Option (List Char) := none
deriving DecidableEq, Repr

/-- External calls made by the USDC transfer module, in order.  The decode
attempts are local computations but are recorded (with their outcome) so
that the decode policy is provable; the remaining events are network
calls, of which `koraBuildCall`, `koraSignAndSendCall`, `ataCreateCall`
and `splTransferCall` are the network-mutating ones. -/
inductive UsdcEvent where
  | balanceQueryCall
  | koraBuildCall
  | versionedDecodeAttempt (ok : Bool)
  | legacyDecodeAttempt (ok : Bool)
  | koraSignAndSendCall
  | ataCreateCall
  | splTransferCall
deriving DecidableEq, Repr

/-- Environment of external outcomes for the USDC transfer module.  Each
field is the behaviour of one collaborator call: a resolved value or the
message of the rejection it throws. -/
structure UsdcEnv where
  /-- Outcome of the balance lookup try-block in `getUsdcBalanceDetailed`
  (PublicKey parsing, ATA derivation and `getTokenAccountBalance`
  collapsed into the single observable outcome of that block). -/
  balanceResult : Except (List Char) ℚ
  /-- `kora.transferTransaction`, keyed by the raw integer amount sent;
  yields the base64 transaction string. -/
  koraBuild : Int → Except (List Char) (List Char)
  /-- Decoding the returned bytes as a versioned transaction, signing and
  re-serializing; the outcome of `VersionedTransaction.deserialize`. -/
  versionedDecode : List Char → Except (List Char) (List Char)
  /-- Decoding the returned bytes as a legacy transaction, partial-signing
  and re-serializing; the outcome of `Transaction.from`. -/
  legacyDecode : List Char → Except (List Char) (List Char)
  /-- `kora.signAndSendTransaction`; yields the network signature. -/
  koraSignAndSend : List Char → Except (List Char) (List Char)
  /-- `new PublicKey(recipientAddress)` on the direct path (outside the
  try-block in the source). -/
  recipientParse : Except (List Char) Unit
  /-- `getOrCreateAssociatedTokenAccount` for the sender. -/
  senderAtaCreate : Except (List Char) (List Char)
  /-- `getOrCreateAssociatedTokenAccount` for the recipient. -/
  recipientAtaCreate : Except (List Char) (List Char)
  /-- `transfer` of spl-token, keyed by the raw integer amount. -/
  splTransfer : Int → Except (List Char) (List Char)

-- ──────────────────────────────────────────────────────────────────
-- getUsdcBalance / getUsdcBalanceDetailed
-- ──────────────────────────────────────────────────────────────────

/-- `getUsdcBalanceDetailed`: balance lookup with full diagnostics.  A
rejection whose message includes "could not find account" is the
missing-account case and reports a zero balance with `ok := true`; any
other rejection is collapsed into `{balance: 0, ok: false, error}`. -/
def getUsdcBalanceDetailed (env : UsdcEnv) (network : SolanaNetwork) :
    UsdcBalanceResult × List UsdcEvent :=
  match USDC_MINT network with
  | none =>
    ({ balance := 0, network := network, ok := false,
       error := some (lc "Unsupported network") }, [])
  | some _ =>
    match env.balanceResult with
    | .ok q => ({ balance := q, network := network, ok := true }, [.balanceQueryCall])
    | .error m =>
      if containsSubstr (lc "could not find account") m then
        ({ balance := 0, network := network, ok := true }, [.balanceQueryCall])
      else
        ({ balance := 0, network := network, ok := false, error := some m },
         [.balanceQueryCall])

/-- `getUsdcBalance`: the balance field of the detailed lookup. -/
def getUsdcBalance (env : UsdcEnv) (network : SolanaNetwork) : ℚ :=
  (getUsdcBalanceDetailed env network).1.balance

-- ──────────────────────────────────────────────────────────────────
-- transferUsdcViaKora
-- ──────────────────────────────────────────────────────────────────

/-- Step 3 of the Kora path: submit the partially signed transaction. -/
def koraFinalize (env : UsdcEnv) (partiallySigned : List Char)
    (evs : List UsdcEvent) : TransferResult × List UsdcEvent :=
  match env.koraSignAndSend partiallySigned with
  | .ok sig =>
    ({ success := true, txSignature := some sig }, evs ++ [.koraSignAndSendCall])
  | .error m =>
    ({ success := false, error := some (lc "Kora transfer failed: " ++ m) },
     evs ++ [.koraSignAndSendCall])

/-- `transferUsdcViaKora`: build via Kora, decode (versioned first, legacy
on decode failure), partially sign, then sign-and-send via Kora.  Every
rejection inside the try-block is caught and wrapped with the
"Kora transfer failed: " prefix. -/
def transferUsdcViaKora (env : UsdcEnv) (network : SolanaNetwork)
    (amountUSDC : ℚ) : TransferResult × List UsdcEvent :=
  match USDC_MINT network with
  | none => ({ success := false, error := some (lc "Unsupported network") }, [])
  | some _ =>
    let amountRaw : Int := ⌊amountUSDC * 1000000⌋
    match env.koraBuild amountRaw with
    | .error m =>
      ({ success := false, error := some (lc "Kora transfer failed: " ++ m) },
       [.koraBuildCall])
    | .ok tx =>
      match env.versionedDecode tx with
      | .ok ps =>
        koraFinalize env ps [.koraBuildCall, .versionedDecodeAttempt true]
      | .error _ =>
        match env.legacyDecode tx with
        | .ok ps =>
          koraFinalize env ps
            [.koraBuildCall, .versionedDecodeAttempt false,
             .legacyDecodeAttempt true]
        | .error m =>
          ({ success := false,
             error := some (lc "Kora transfer failed: " ++ m) },
           [.koraBuildCall, .versionedDecodeAttempt false,
            .legacyDecodeAttempt false])

-- ──────────────────────────────────────────────────────────────────
-- transferUsdc
-- ──────────────────────────────────────────────────────────────────

/-- Rendering of a rational with four decimal places, modelling
`Number.prototype.toFixed(4)` (round to nearest, used only inside the
safety-limit message). -/
def toFixed4 (q : ℚ) : List Char :=
  let n : Int := round (|q| * 10000)
  let whole := n.toNat / 10000
  let frac := n.toNat % 10000
  let fracDigits := natRepr frac
  let padded := List.replicate (4 - fracDigits.length) '0' ++ fracDigits
  (if q < 0 ∧ n ≠ 0 then ['-'] else []) ++ natRepr whole ++ '.' :: padded

/-- The safety-limit error message produced when a transfer exceeds half
of the queried balance. -/
def safetyLimitMsg (balance : ℚ) : List Char :=
  lc "Safety limit: cannot send more than 50% of balance (" ++
    toFixed4 balance ++ lc " USDC) in one transfer"

/-- `transferUsdc`: query balance, enforce the 50% safety limit, then run
either the Kora path (when a Kora client is supplied) or the direct
path.  The first component is `Except` because the direct path parses
the recipient address outside its try-block, so that parse rejection
propagates to the caller; every other failure is returned as a
`TransferResult`. -/
def transferUsdc (env : UsdcEnv) (network : SolanaNetwork) (amountUSDC : ℚ)
    (hasKora : Bool) :
    Except (List Char) TransferResult × List UsdcEvent :=
  let balance := (getUsdcBalanceDetailed env network).1.balance
  let evs0 := (getUsdcBalanceDetailed env network).2
  if amountUSDC > balance * (1/2) then
    (.ok { success := false, error := some (safetyLimitMsg balance) }, evs0)
  else if hasKora then
    (.ok (transferUsdcViaKora env network amountUSDC).1,
     evs0 ++ (transferUsdcViaKora env network amountUSDC).2)
  else
    match USDC_MINT network with
    | none =>
      (.ok { success := false, error := some (lc "Unsupported network") }, evs0)
    | some _ =>
      match env.recipientParse with
      | .error m => (.error m, evs0)
      | .ok _ =>
        match env.senderAtaCreate with
        | .error m =>
          (.ok { success := false, error := some m }, evs0 ++ [.ataCreateCall])
        | .ok _ =>
          match env.recipientAtaCreate with
          | .error m =>
            (.ok { success := false, error := some m },
             evs0 ++ [.ataCreateCall, .ataCreateCall])
          | .ok _ =>
            match env.splTransfer ⌊amountUSDC * 1000000⌋ with
            | .ok sig =>
              (.ok { success := true, txSignature := some sig },
               evs0 ++ [.ataCreateCall, .ataCreateCall, .splTransferCall])
            | .error m =>
              (.ok { success := false, error := some m },
               evs0 ++ [.ataCreateCall, .ataCreateCall, .splTransferCall])

-- ──────────────────────────────────────────────────────────────────
-- KoraClient.rpc (src/unnamed/part_000, Kora JSON-RPC client)
-- ──────────────────────────────────────────────────────────────────

/-- A JSON-RPC error object `{code, message}`. -/
structure RpcErrorObj where
  code : Int
  message : List Char
deriving DecidableEq, Repr

/-- Parsed JSON-RPC response body: optional `result`, optional `error`.
The result payload is irrelevant to the claims and kept opaque. -/
structure RpcBody where
  hasResult : Bool := false
  error : Option RpcErrorObj := none
deriving DecidableEq, Repr

/-- An HTTP response as observed by `KoraClient.rpc`: status, status
text, and the outcome of `response.json()`. -/
structure RpcResponse where
  status : Nat
  statusText : List Char
  body : Except (List Char) RpcBody
deriving Repr

/-- `KoraClient.rpc`: POST the envelope, throw on non-2xx status, parse
the body, throw on a protocol error object, otherwise return the result.
The argument is the outcome of the underlying `fetch` (a transport
rejection propagates unchanged). -/
def koraRpc (fetchResult : Except (List Char) RpcResponse) :
    Except (List Char) Bool :=
  match fetchResult with
  | .error m => .error m
  | .ok resp =>
    if respOk resp.status then
      match resp.body with
      | .error m => .error m
      | .ok body =>
        match body.error with
        | some e =>
          .error (lc "Kora RPC error [" ++ intRepr e.code ++ lc "]: " ++
            e.message)
        | none => .ok body.hasResult
    else
      .error (lc "Kora RPC HTTP error: " ++ natRepr resp.status ++
        lc " " ++ resp.statusText)

-- ──────────────────────────────────────────────────────────────────
-- Concrete environments used by witnesses and counterexamples
-- ──────────────────────────────────────────────────────────────────

/-- An environment in which every external call succeeds. -/
def usdcEnvAllOk : UsdcEnv where
  balanceResult := .ok 100
  koraBuild := fun _ => .ok (lc "txbytes")
  versionedDecode := fun _ => .ok (lc "signedtx")
  legacyDecode := fun _ => .ok (lc "signedtx")
  koraSignAndSend := fun _ => .ok (lc "sig")
  recipientParse := .ok ()
  senderAtaCreate := .ok (lc "senderAta")
  recipientAtaCreate := .ok (lc "recipAta")
  splTransfer := fun _ => .ok (lc "sig")

/-- An environment whose direct-path sender ATA call rejects with the
message "boom"; everything else succeeds. -/
def usdcEnvAtaBoom : UsdcEnv :=
  { usdcEnvAllOk with senderAtaCreate := .error (lc "boom") }

/-- An environment in which parsing the recipient address throws. -/
def usdcEnvBadRecipient : UsdcEnv :=
  { usdcEnvAllOk with recipientParse := .error (lc "bad address") }

/-- An environment whose balance lookup rejects with a message that is
not the missing-account marker. -/
def usdcEnvBalanceTimeout : UsdcEnv :=
  { usdcEnvAllOk with balanceResult := .error (lc "fetch timeout") }

-- ──────────────────────────────────────────────────────────────────
-- C1: the 50% safety limit
-- ──────────────────────────────────────────────────────────────────

/-- The balance lookup performs exactly the balance query call. -/
theorem getUsdcBalanceDetailed_events (env : UsdcEnv)
    (network : SolanaNetwork) :
    (getUsdcBalanceDetailed env network).2 = [.balanceQueryCall] := by
  unfold getUsdcBalanceDetailed
  cases network <;>
    simp only [USDC_MINT] <;>
    cases env.balanceResult <;> simp <;> split <;> simp

/-- Auxiliary form of the safety-limit property, shared by the proofs
below. -/
theorem transferUsdc_safety_aux (env : UsdcEnv) (network : SolanaNetwork)
    (amountUSDC : ℚ) (hasKora : Bool)
    (h : amountUSDC > getUsdcBalance env network * (1/2)) :
    (transferUsdc env network amountUSDC hasKora).1 =
      .ok { success := false,
            error := some (safetyLimitMsg (getUsdcBalance env network)) } ∧
    (transferUsdc env network amountUSDC hasKora).2 = [.balanceQueryCall] ∧
    transferUsdc env network amountUSDC hasKora =
      transferUsdc env network amountUSDC (!hasKora) := by
  rw [getUsdcBalance] at h
  simp only [transferUsdc, if_pos h, getUsdcBalanceDetailed_events]
  refine ⟨?_, ?_, ?_⟩ <;> trivial

/-- C1: whenever the requested amount exceeds half of the balance
returned by the balance query, `transferUsdc` returns a failed result
carrying the safety-limit message, performs no call beyond the balance
query (in particular no Kora build or sign-and-send and no direct
transfer), and its behaviour is identical with and without a Kora
client. -/
theorem transferUsdc_safetyLimit (env : UsdcEnv) (network : SolanaNetwork)
    (amountUSDC : ℚ) (hasKora : Bool)
    (h : amountUSDC > getUsdcBalance env network * (1/2)) :
    (transferUsdc env network amountUSDC hasKora).1 =
      .ok { success := false,
            error := some (safetyLimitMsg (getUsdcBalance env network)) } ∧
    (transferUsdc env network amountUSDC hasKora).2 = [.balanceQueryCall] ∧
    transferUsdc env network amountUSDC hasKora =
      transferUsdc env network amountUSDC (!hasKora) :=
  transferUsdc_safety_aux env network amountUSDC hasKora h

/-- Witness for C1 at a concrete input: balance 100, request 51. -/
theorem transferUsdc_safetyLimit_witness :
    (51 : ℚ) > getUsdcBalance usdcEnvAllOk .devnet * (1/2) ∧
    (transferUsdc usdcEnvAllOk .devnet 51 true).1 =
      .ok { success := false,
            error := some (safetyLimitMsg (getUsdcBalance usdcEnvAllOk .devnet)) } := by
  have hb : getUsdcBalance usdcEnvAllOk .devnet = 100 := by
    simp [getUsdcBalance, getUsdcBalanceDetailed, USDC_MINT, usdcEnvAllOk]
  have h : (51 : ℚ) > getUsdcBalance usdcEnvAllOk .devnet * (1/2) := by
    rw [hb]; norm_num
  exact ⟨h, (transferUsdc_safetyLimit usdcEnvAllOk .devnet 51 true h).1⟩

-- ──────────────────────────────────────────────────────────────────
-- C2: the fee-payer path call order
-- ──────────────────────────────────────────────────────────────────

/-- C2: on the fee-payer path, when no step fails, the calls are exactly
the remote build, then one decode policy run (versioned decode first; a
legacy decode is attempted only when versioned decoding throws, so both
never succeed on one transaction), then the remote sign-and-send, in
that order and once each. -/
theorem transferUsdcViaKora_callOrder (env : UsdcEnv)
    (network : SolanaNetwork) (amountUSDC : ℚ)
    (h : (transferUsdcViaKora env network amountUSDC).1.success = true) :
    (transferUsdcViaKora env network amountUSDC).2 =
      [.koraBuildCall, .versionedDecodeAttempt true, .koraSignAndSendCall] ∨
    (transferUsdcViaKora env network amountUSDC).2 =
      [.koraBuildCall, .versionedDecodeAttempt false,
       .legacyDecodeAttempt true, .koraSignAndSendCall] := by
  unfold transferUsdcViaKora at *
  cases network <;> simp only [USDC_MINT] at * <;>
  · cases hb : env.koraBuild ⌊amountUSDC * 1000000⌋ <;> simp only [hb] at h ⊢
    · simp at h
    case ok tx =>
      cases hv : env.versionedDecode tx <;> simp only [hv] at h ⊢
      case ok ps =>
        unfold koraFinalize at *
        cases hs : env.koraSignAndSend ps <;> simp only [hs] at h ⊢
        · simp at h
        · simp
      case error _ =>
        cases hl : env.legacyDecode tx <;> simp only [hl] at h ⊢
        · simp at h
        case ok ps =>
          unfold koraFinalize at *
          cases hs : env.koraSignAndSend ps <;> simp only [hs] at h ⊢
          · simp at h
          · simp

/-- Witness for C2: with every call succeeding, the run succeeds and the
trace is the versioned-decode trace. -/
theorem transferUsdcViaKora_callOrder_witness :
    (transferUsdcViaKora usdcEnvAllOk .devnet 1).1.success = true ∧
    ((transferUsdcViaKora usdcEnvAllOk .devnet 1).2 =
      [.koraBuildCall, .versionedDecodeAttempt true, .koraSignAndSendCall] ∨
     (transferUsdcViaKora usdcEnvAllOk .devnet 1).2 =
      [.koraBuildCall, .versionedDecodeAttempt false,
       .legacyDecodeAttempt true, .koraSignAndSendCall]) := by
  have hs : (transferUsdcViaKora usdcEnvAllOk .devnet 1).1.success = true := by
    simp [transferUsdcViaKora, koraFinalize, usdcEnvAllOk, USDC_MINT]
  exact ⟨hs, transferUsdcViaKora_callOrder usdcEnvAllOk .devnet 1 hs⟩

-- ──────────────────────────────────────────────────────────────────
-- C3: error surfacing of transferUsdc (corrected)
-- ──────────────────────────────────────────────────────────────────

/-- C3 counterexample: the claim that every failing path returns an
error of the form "<Context> failed: <message>", and that no raw
exception ever leaves `transferUsdc`, is false on the direct path with
a Kora client absent: a failing sender-ATA call surfaces the raw
message "boom" with no context prefix, and an invalid recipient address
is thrown to the caller because its parse sits outside the try-block. -/
theorem transferUsdc_contextPrefix_counterexample :
    ((transferUsdc usdcEnvAtaBoom .devnet 1 false).1 =
        .ok { success := false, error := some (lc "boom") } ∧
      ¬ ∃ ctx um, lc "boom" = ctx ++ lc " failed: " ++ um) ∧
    (transferUsdc usdcEnvBadRecipient .devnet 1 false).1 =
      .error (lc "bad address") := by
  refine ⟨⟨?_, ?_⟩, ?_⟩
  · simp [transferUsdc, getUsdcBalanceDetailed, USDC_MINT, usdcEnvAtaBoom,
      usdcEnvAllOk]
    norm_num
  · rintro ⟨ctx, um, hcontra⟩
    have hinf : lc " failed: " <:+: lc "boom" := ⟨ctx, um, hcontra.symm⟩
    exact absurd hinf (by decide)
  · simp [transferUsdc, getUsdcBalanceDetailed, USDC_MINT,
      usdcEnvBadRecipient, usdcEnvAllOk]
    norm_num

/-- On the fee-payer path every failure is wrapped with the
"Kora transfer failed: " context prefix. -/
theorem transferUsdcViaKora_failWrapped (env : UsdcEnv)
    (network : SolanaNetwork) (amountUSDC : ℚ)
    (h : (transferUsdcViaKora env network amountUSDC).1.success = false) :
    ∃ m, (transferUsdcViaKora env network amountUSDC).1.error =
      some (lc "Kora transfer failed: " ++ m) := by
  unfold transferUsdcViaKora at *
  cases network <;> simp only [USDC_MINT] at h ⊢ <;>
  · cases hb : env.koraBuild ⌊amountUSDC * 1000000⌋ <;> simp only [hb] at h ⊢
    · exact ⟨_, rfl⟩
    case ok tx =>
      cases hv : env.versionedDecode tx <;> simp only [hv] at h ⊢
      case ok ps =>
        unfold koraFinalize at *
        cases hs : env.koraSignAndSend ps <;> simp only [hs] at h ⊢
        · exact ⟨_, rfl⟩
        · simp at h
      case error _ =>
        cases hl : env.legacyDecode tx <;> simp only [hl] at h ⊢
        · exact ⟨_, rfl⟩
        case ok ps =>
          unfold koraFinalize at *
          cases hs : env.koraSignAndSend ps <;> simp only [hs] at h ⊢
          · exact ⟨_, rfl⟩
          · simp at h

/-- C3 (amended): `transferUsdc` on the fee-payer path never raises and
wraps every step failure as "Kora transfer failed: <message>" (or
reports the safety limit); on the direct path a raised value can come
only from the recipient-address parse (which sits outside the
try-block), and every caught step failure is returned as
`success := false` carrying the raw underlying message without a
context prefix (or the safety-limit message). -/
theorem transferUsdc_errorSurface (env : UsdcEnv) (network : SolanaNetwork)
    (amountUSDC : ℚ) (hasKora : Bool) :
    (hasKora = true →
      ∃ res, (transferUsdc env network amountUSDC hasKora).1 = .ok res ∧
        (res.success = false →
          res.error = some (safetyLimitMsg (getUsdcBalance env network)) ∨
          ∃ m, res.error = some (lc "Kora transfer failed: " ++ m))) ∧
    (hasKora = false →
      (∀ m, (transferUsdc env network amountUSDC hasKora).1 = .error m →
        env.recipientParse = .error m) ∧
      (∀ res, (transferUsdc env network amountUSDC hasKora).1 = .ok res →
        res.success = false →
        res.error = some (safetyLimitMsg (getUsdcBalance env network)) ∨
        ∃ m, res.error = some m ∧
          (env.senderAtaCreate = .error m ∨
           env.recipientAtaCreate = .error m ∨
           env.splTransfer ⌊amountUSDC * 1000000⌋ = .error m))) := by
  constructor
  · rintro rfl
    simp only [transferUsdc]
    split
    · exact ⟨_, rfl, fun _ => Or.inl rfl⟩
    · refine ⟨_, rfl, fun hf => Or.inr ?_⟩
      exact transferUsdcViaKora_failWrapped env network amountUSDC hf
  · rintro rfl
    simp only [transferUsdc, Bool.false_eq_true, if_false]
    split
    · refine ⟨fun m hm => Except.noConfusion hm, fun res hres _ => Or.inl ?_⟩
      have h2 := Except.ok.inj hres
      rw [← h2]
      simp [getUsdcBalance]
    · cases network <;> simp only [USDC_MINT] <;>
      · cases hr : env.recipientParse with
        | error m =>
          refine ⟨fun m' hm' => ?_, fun res hres => Except.noConfusion hres⟩
          have h2 := Except.error.inj hm'
          rw [← h2]
        | ok u =>
          cases ha : env.senderAtaCreate with
          | error m =>
            refine ⟨fun m' hm' => Except.noConfusion hm',
              fun res hres _ => Or.inr ?_⟩
            have h2 := Except.ok.inj hres
            exact ⟨m, by rw [← h2], Or.inl rfl⟩
          | ok a1 =>
            cases hb : env.recipientAtaCreate with
            | error m =>
              refine ⟨fun m' hm' => Except.noConfusion hm',
                fun res hres _ => Or.inr ?_⟩
              have h2 := Except.ok.inj hres
              exact ⟨m, by rw [← h2], Or.inr (Or.inl rfl)⟩
            | ok a2 =>
              cases ht : env.splTransfer ⌊amountUSDC * 1000000⌋ with
              | error m =>
                refine ⟨fun m' hm' => Except.noConfusion hm',
                  fun res hres _ => Or.inr ?_⟩
                have h2 := Except.ok.inj hres
                exact ⟨m, by rw [← h2], Or.inr (Or.inr rfl)⟩
              | ok sig =>
                refine ⟨fun m' hm' => Except.noConfusion hm',
                  fun res hres hf => ?_⟩
                have h2 := Except.ok.inj hres
                rw [← h2] at hf
                simp at hf

/-- Witness for the amended C3: the fee-payer branch instantiated at a
concrete environment. -/
theorem transferUsdc_errorSurface_witness :
    ∃ res, (transferUsdc usdcEnvAllOk .devnet 1 true).1 = .ok res ∧
      (res.success = false →
        res.error = some (safetyLimitMsg (getUsdcBalance usdcEnvAllOk .devnet)) ∨
        ∃ m, res.error = some (lc "Kora transfer failed: " ++ m)) :=
  (transferUsdc_errorSurface usdcEnvAllOk .devnet 1 true).1 rfl

-- ──────────────────────────────────────────────────────────────────
-- C4: KoraClient.rpc error formats
-- ──────────────────────────────────────────────────────────────────

/-- C4: a 2xx response whose body carries a protocol error object makes
`KoraClient.rpc` throw exactly "Kora RPC error [<code>]: <message>"; a
non-2xx response makes it throw a message containing
"HTTP error: <status>". -/
theorem koraRpc_errorSurface (resp : RpcResponse) :
    (∀ body e, respOk resp.status = true → resp.body = .ok body →
        body.error = some e →
        koraRpc (.ok resp) =
          .error (lc "Kora RPC error [" ++ intRepr e.code ++ lc "]: " ++
            e.message)) ∧
    (respOk resp.status = false →
      ∃ m, koraRpc (.ok resp) = .error m ∧
        (lc "HTTP error: " ++ natRepr resp.status) <:+: m) := by
  constructor
  · intro body e hok hbody herr
    simp [koraRpc, hok, hbody, herr]
  · intro hbad
    refine ⟨lc "Kora RPC HTTP error: " ++ natRepr resp.status ++ lc " " ++
      resp.statusText, by simp [koraRpc, hbad], ?_⟩
    refine ⟨lc "Kora RPC ", lc " " ++ resp.statusText, ?_⟩
    have hsplit : lc "Kora RPC HTTP error: " =
        lc "Kora RPC " ++ lc "HTTP error: " := by decide
    simp [hsplit, List.append_assoc]

/-- A 200 response carrying the protocol error object of the claim. -/
def rpcResp200 : RpcResponse where
  status := 200
  statusText := lc "OK"
  body := .ok { hasResult := false, error := some { code := -32600, message := lc "Invalid params" } }

/-- A plain 500 response. -/
def rpcResp500 : RpcResponse where
  status := 500
  statusText := lc "Internal Server Error"
  body := .ok { hasResult := false, error := none }

/-- Witness for C4: the exact message for code -32600 / "Invalid params"
on a 200 response, and containment of "HTTP error: 500" on a 500. -/
theorem koraRpc_errorSurface_witness :
    koraRpc (.ok rpcResp200) =
      .error (lc "Kora RPC error [-32600]: Invalid params") ∧
    ∃ m, koraRpc (.ok rpcResp500) = .error m ∧
      lc "HTTP error: 500" <:+: m := by
  constructor
  · have h := (koraRpc_errorSurface rpcResp200).1
      { hasResult := false, error := some { code := -32600, message := lc "Invalid params" } }
      { code := -32600, message := lc "Invalid params" } (by decide) rfl rfl
    rw [h]
    congr 1
  · obtain ⟨m, hm, hinf⟩ := (koraRpc_errorSurface rpcResp500).2 (by decide)
    refine ⟨m, hm, ?_⟩
    have hst : rpcResp500.status = 500 := rfl
    have h500 : lc "HTTP error: " ++ natRepr 500 = lc "HTTP error: 500" := by
      decide
    rw [hst, h500] at hinf
    exact hinf

-- ──────────────────────────────────────────────────────────────────
-- C10: balance-lookup failures default to zero and trip the safety limit
-- ──────────────────────────────────────────────────────────────────

/-- C10: when the balance query rejects with a message that does not
indicate a missing account, `getUsdcBalance` reports 0 instead of
propagating, and a transfer of any positive amount fails with the
safety-limit message (not a balance-lookup error) before any further
call on either path. -/
theorem transferUsdc_balanceErrorDefault (env : UsdcEnv)
    (network : SolanaNetwork) (amountUSDC : ℚ) (hasKora : Bool)
    (m : List Char)
    (hpos : 0 < amountUSDC)
    (herr : env.balanceResult = .error m)
    (hnf : containsSubstr (lc "could not find account") m = false) :
    getUsdcBalance env network = 0 ∧
    (getUsdcBalanceDetailed env network).1.ok = false ∧
    (transferUsdc env network amountUSDC hasKora).1 =
      .ok { success := false, error := some (safetyLimitMsg 0) } ∧
    (transferUsdc env network amountUSDC hasKora).2 = [.balanceQueryCall] := by
  have hdet : (getUsdcBalanceDetailed env network).1 =
      { balance := 0, network := network, ok := false, error := some m } := by
    unfold getUsdcBalanceDetailed
    cases network <;> simp [USDC_MINT, herr, hnf]
  have hbal : getUsdcBalance env network = 0 := by
    rw [getUsdcBalance, hdet]
  have hgt : amountUSDC > getUsdcBalance env network * (1/2) := by
    rw [hbal]; simpa using hpos
  obtain ⟨h1, h2, _⟩ := transferUsdc_safety_aux env network amountUSDC hasKora hgt
  refine ⟨hbal, by rw [hdet], ?_, h2⟩
  rw [h1, hbal]

/-- Witness for C10 at a concrete rejecting environment. -/
theorem transferUsdc_balanceErrorDefault_witness :
    (0 : ℚ) < 1 ∧
    containsSubstr (lc "could not find account") (lc "fetch timeout") = false ∧
    getUsdcBalance usdcEnvBalanceTimeout .mainnetBeta = 0 ∧
    (transferUsdc usdcEnvBalanceTimeout .mainnetBeta 1 false).1 =
      .ok { success := false, error := some (safetyLimitMsg 0) } := by
  have h := transferUsdc_balanceErrorDefault usdcEnvBalanceTimeout
    .mainnetBeta 1 false (lc "fetch timeout") (by norm_num) rfl (by decide)
  exact ⟨by norm_num, by decide, h.1, h.2.2.1⟩

-- ──────────────────────────────────────────────────────────────────
-- Registry (src/src/registry/solana-registry.ts)
-- ──────────────────────────────────────────────────────────────────

/-- A persisted registry entry. -/
structure RegistryEntry where
  assetAddress : List Char
  agentURI : List Char
  network : SolanaNetwork
  txSignature : List Char
  registeredAt : List Char
deriving DecidableEq, Repr

/-- Environment of external outcomes for `registerAgent`:
`create n` is the outcome of the `createV1 … sendAndConfirm` call on
attempt `n` (1-based), and `now` is the current timestamp string. -/
structure RegEnv where
  create : Nat → Except (List Char) (List Char)
  now : List Char

/-- `isIdempotencyError`: recognizes the already-created markers in a
lowercased rendering of the thrown error. -/
def isIdempotencyError (m : List Char) : Bool :=
  let low := m.map Char.toLower
  containsSubstr (lc "already in use") low ||
  containsSubstr (lc "account already exists") low ||
  containsSubstr (lc "already initialized") low ||
  containsSubstr (lc "custom program error: 0x0") low

/-- The deterministic asset address derived from the registry domain
string, the holder address and the agent name (stands in for the
sha256-seeded keypair of the source; the claims depend only on it
being a function of holder and name). -/
def deriveAssetAddress (holder agentName : List Char) : List Char :=
  lc "automaton-registry-v1:" ++ holder ++ lc "/" ++ agentName

/-- The retry loop of `registerAgent`: up to `remaining` further
attempts, 1-based attempt counter, the message of the last failure.
Returns the result, the new store content, and how many create calls
were issued. -/
def registerLoop (env : RegEnv) (assetAddress agentCardUri : List Char)
    (network : SolanaNetwork) (db : Option RegistryEntry) :
    Nat → Nat → List Char →
    Except (List Char) RegistryEntry × Option RegistryEntry × Nat
  | 0, _, lastError =>
    (.error (lc "Failed to register agent after 3 attempts: " ++ lastError),
     db, 0)
  | remaining + 1, attempt, _ =>
    match env.create attempt with
    | .ok sig =>
      let entry : RegistryEntry :=
        { assetAddress := assetAddress, agentURI := agentCardUri,
          network := network, txSignature := sig, registeredAt := env.now }
      (.ok entry, some entry, 1)
    | .error m =>
      if isIdempotencyError m then
        let entry : RegistryEntry :=
          { assetAddress := assetAddress, agentURI := agentCardUri,
            network := network, txSignature := lc "already-registered",
            registeredAt := env.now }
        (.ok entry, some entry, 1)
      else
        let rest := registerLoop env assetAddress agentCardUri network db
          remaining (attempt + 1) m
        (rest.1, rest.2.1, rest.2.2 + 1)

/-- `registerAgent`: return the stored entry when one exists for the
same network (idempotency via the store); otherwise run up to three
create attempts with the deterministically derived asset address.
The third component counts the on-chain create calls issued. -/
def registerAgent (env : RegEnv) (holder agentName agentCardUri : List Char)
    (network : SolanaNetwork) (db : Option RegistryEntry) :
    Except (List Char) RegistryEntry × Option RegistryEntry × Nat :=
  match db with
  | some existing =>
    if existing.network = network then (.ok existing, db, 0)
    else
      registerLoop env (deriveAssetAddress holder agentName) agentCardUri
        network db 3 1 []
  | none =>
    registerLoop env (deriveAssetAddress holder agentName) agentCardUri
      network db 3 1 []

-- ──────────────────────────────────────────────────────────────────
-- C6: registration idempotence against a populated store
-- ──────────────────────────────────────────────────────────────────

/-- C6: with the store already holding an entry for the requested
network, two calls of `registerAgent` with identical inputs both return
that stored entry, leave the store unchanged, and together issue zero
on-chain create calls (the environments of the two calls may even
differ). -/
theorem registerAgent_idempotent (env env2 : RegEnv)
    (holder agentName agentCardUri : List Char) (network : SolanaNetwork)
    (entry : RegistryEntry)
    (hmatch : entry.network = network) :
    registerAgent env holder agentName agentCardUri network (some entry) =
      (.ok entry, some entry, 0) ∧
    registerAgent env2 holder agentName agentCardUri network
      (registerAgent env holder agentName agentCardUri network
        (some entry)).2.1 =
      (.ok entry, some entry, 0) := by
  have h1 : registerAgent env holder agentName agentCardUri network
      (some entry) = (.ok entry, some entry, 0) := by
    simp [registerAgent, hmatch]
  refine ⟨h1, ?_⟩
  rw [h1]
  simp [registerAgent, hmatch]

/-- A concrete stored registry entry on devnet. -/
def regEntryDevnet : RegistryEntry where
  assetAddress := lc "asset"
  agentURI := lc "uri"
  network := .devnet
  txSignature := lc "sig"
  registeredAt := lc "t0"

/-- An environment whose create call always rejects, to certify that it
is never reached. -/
def regEnvUnreachable : RegEnv where
  create := fun _ => .error (lc "unreachable")
  now := lc "t1"

/-- Witness for C6 at a concrete store and entry. -/
theorem registerAgent_idempotent_witness :
    regEntryDevnet.network = .devnet ∧
    registerAgent regEnvUnreachable (lc "holder") (lc "name") (lc "uri")
      .devnet (some regEntryDevnet) =
      (.ok regEntryDevnet, some regEntryDevnet, 0) :=
  ⟨rfl,
   (registerAgent_idempotent regEnvUnreachable regEnvUnreachable
      (lc "holder") (lc "name") (lc "uri") .devnet regEntryDevnet rfl).1⟩

-- ──────────────────────────────────────────────────────────────────
-- x402 network resolution (src/src/conway/x402.ts)
-- ──────────────────────────────────────────────────────────────────

/-- The whitespace class removed by `String.prototype.trim`. -/
def isJsWhitespace (c : Char) : Bool :=
  c = ' ' || c = '\t' || c = '\n' || c = '\r' ||
  c.toNat = 11 || c.toNat = 12 || c.toNat = 160 || c.toNat = 65279 ||
  c.toNat = 8232 || c.toNat = 8233

/-- `String.prototype.trim`: drop leading and trailing whitespace. -/
def jsTrim (s : List Char) : List Char :=
  ((s.dropWhile isJsWhitespace).reverse.dropWhile isJsWhitespace).reverse

/-- `trim().toLowerCase()` as applied by `resolveCluster` (lowercasing
is per character; the recognized designators are ASCII). -/
def lowerTrim (s : List Char) : List Char :=
  (jsTrim s).map Char.toLower

/-- `resolveCluster`: normalize a network designator from the payment
requirements to one of the three canonical cluster names, defaulting to
"devnet" for anything unrecognized. -/
def resolveCluster (cluster : List Char) : List Char :=
  if lowerTrim cluster = lc "mainnet" ∨ lowerTrim cluster = lc "mainnet-beta" ∨
      lowerTrim cluster = lc "solana-mainnet" then
    lc "mainnet-beta"
  else if lowerTrim cluster = lc "devnet" ∨
      lowerTrim cluster = lc "solana-devnet" then lc "devnet"
  else if lowerTrim cluster = lc "testnet" ∨
      lowerTrim cluster = lc "solana-testnet" then lc "testnet"
  else lc "devnet"

-- ──────────────────────────────────────────────────────────────────
-- C8: cluster resolution is canonical and defaults to the test network
-- ──────────────────────────────────────────────────────────────────

/-- C8: every designator resolves (after trimming and lowercasing) to
one of the three canonical networks, and any designator outside the
recognized set resolves to "devnet" — in particular never to
"mainnet-beta" unless it is one of the three mainnet aliases. -/
theorem resolveCluster_canonical (cluster : List Char) :
    (resolveCluster cluster = lc "mainnet-beta" ∨
     resolveCluster cluster = lc "devnet" ∨
     resolveCluster cluster = lc "testnet") ∧
    (¬ (lowerTrim cluster = lc "mainnet" ∨
        lowerTrim cluster = lc "mainnet-beta" ∨
        lowerTrim cluster = lc "solana-mainnet" ∨
        lowerTrim cluster = lc "devnet" ∨
        lowerTrim cluster = lc "solana-devnet" ∨
        lowerTrim cluster = lc "testnet" ∨
        lowerTrim cluster = lc "solana-testnet") →
      resolveCluster cluster = lc "devnet") ∧
    (resolveCluster cluster = lc "mainnet-beta" →
      lowerTrim cluster = lc "mainnet" ∨
      lowerTrim cluster = lc "mainnet-beta" ∨
      lowerTrim cluster = lc "solana-mainnet") := by
  unfold resolveCluster
  split
  · refine ⟨Or.inl rfl, fun hn => absurd ?_ hn, fun _ => by tauto⟩
    tauto
  · split
    · exact ⟨Or.inr (Or.inl rfl), fun _ => rfl,
        fun h => absurd h (by decide)⟩
    · split
      · refine ⟨Or.inr (Or.inr rfl), fun hn => absurd ?_ hn,
          fun h => absurd h (by decide)⟩
        tauto
      · exact ⟨Or.inr (Or.inl rfl), fun _ => rfl,
          fun h => absurd h (by decide)⟩

/-- Witness for C8: a recognized mainnet alias with noise, and an
unrecognized designator falling back to devnet. -/
theorem resolveCluster_canonical_witness :
    resolveCluster (lc " SoLaNa-MAINNET ") = lc "mainnet-beta" ∧
    resolveCluster (lc "base-sepolia") = lc "devnet" := by
  constructor
  · have h := (resolveCluster_canonical (lc " SoLaNa-MAINNET ")).1
    have : resolveCluster (lc " SoLaNa-MAINNET ") = lc "mainnet-beta" := by
      decide
    exact this
  · exact (resolveCluster_canonical (lc "base-sepolia")).2.1 (by decide)

-- ──────────────────────────────────────────────────────────────────
-- Base64 (the `Buffer … toString("base64")` / `Buffer.from(_, "base64")`
-- pair used for the X-Payment header)
-- ──────────────────────────────────────────────────────────────────

/-- The base64 alphabet. -/
def b64Char (n : Nat) : Char :=
  if n < 26 then Char.ofNat (65 + n)
  else if n < 52 then Char.ofNat (97 + (n - 26))
  else if n < 62 then Char.ofNat (48 + (n - 52))
  else if n = 62 then '+'
  else '/'

/-- Inverse alphabet lookup. -/
def b64Val (c : Char) : Option Nat :=
  if 'A' ≤ c ∧ c ≤ 'Z' then some (c.toNat - 65)
  else if 'a' ≤ c ∧ c ≤ 'z' then some (c.toNat - 97 + 26)
  else if '0' ≤ c ∧ c ≤ '9' then some (c.toNat - 48 + 52)
  else if c = '+' then some 62
  else if c = '/' then some 63
  else none

theorem b64Val_b64Char_fin : ∀ n : Fin 64, b64Val (b64Char n.val) = some n.val := by
  decide

theorem b64Val_b64Char (n : Nat) (h : n < 64) : b64Val (b64Char n) = some n :=
  b64Val_b64Char_fin ⟨n, h⟩

theorem b64Char_ne_pad_fin : ∀ n : Fin 64, b64Char n.val ≠ '=' := by decide

theorem b64Char_ne_pad (n : Nat) (h : n < 64) : b64Char n ≠ '=' :=
  b64Char_ne_pad_fin ⟨n, h⟩

/-- Standard base64 encoding of a byte list, with padding. -/
def base64Encode : List Nat → List Char
  | [] => []
  | [a] => [b64Char (a / 4), b64Char (a % 4 * 16), '=', '=']
  | [a, b] =>
    [b64Char (a / 4), b64Char (a % 4 * 16 + b / 16), b64Char (b % 16 * 4), '=']
  | a :: b :: c :: rest =>
    b64Char (a / 4) :: b64Char (a % 4 * 16 + b / 16) ::
      b64Char (b % 16 * 4 + c / 64) :: b64Char (c % 64) :: base64Encode rest

/-- Standard base64 decoding to a byte list; `none` on malformed input. -/
def base64Decode : List Char → Option (List Nat)
  | [] => some []
  | w :: x :: y :: z :: rest =>
    match b64Val w, b64Val x with
    | some v1, some v2 =>
      if y = '=' then
        if z = '=' ∧ rest = [] then some [v1 * 4 + v2 / 16] else none
      else
        match b64Val y with
        | some v3 =>
          if z = '=' then
            if rest = [] then some [v1 * 4 + v2 / 16, v2 % 16 * 16 + v3 / 4]
            else none
          else
            match b64Val z with
            | some v4 =>
              (base64Decode rest).map
                (fun r => (v1 * 4 + v2 / 16) :: (v2 % 16 * 16 + v3 / 4) ::
                  (v3 % 4 * 64 + v4) :: r)
            | none => none
        | none => none
    | _, _ => none
  | _ => none

theorem base64_roundTrip (bs : List Nat) (h : ∀ b ∈ bs, b < 256) :
    base64Decode (base64Encode bs) = some bs := by
  induction bs using base64Encode.induct with
  | case1 => rfl
  | case2 a =>
    have ha : a < 256 := h a (by simp)
    have h1 : a / 4 < 64 := by omega
    have h2 : a % 4 * 16 < 64 := by omega
    simp [base64Encode, base64Decode, b64Val_b64Char _ h1,
      b64Val_b64Char _ h2]
    omega
  | case3 a b =>
    have ha : a < 256 := h a (by simp)
    have hb : b < 256 := h b (by simp)
    have h1 : a / 4 < 64 := by omega
    have h2 : a % 4 * 16 + b / 16 < 64 := by omega
    have h3 : b % 16 * 4 < 64 := by omega
    simp [base64Encode, base64Decode, b64Val_b64Char _ h1,
      b64Val_b64Char _ h2, b64Val_b64Char _ h3, b64Char_ne_pad _ h3]
    omega
  | case4 a b c rest ih =>
    have ha : a < 256 := h a (by simp)
    have hb : b < 256 := h b (by simp)
    have hc : c < 256 := h c (by simp)
    have h1 : a / 4 < 64 := by omega
    have h2 : a % 4 * 16 + b / 16 < 64 := by omega
    have h3 : b % 16 * 4 + c / 64 < 64 := by omega
    have h4 : c % 64 < 64 := by omega
    have ih2 := ih (fun x hx => h x (by simp [hx]))
    simp [base64Encode, base64Decode, b64Val_b64Char _ h1,
      b64Val_b64Char _ h2, b64Val_b64Char _ h3, b64Val_b64Char _ h4,
      b64Char_ne_pad _ h3, b64Char_ne_pad _ h4, ih2]
    omega

-- ──────────────────────────────────────────────────────────────────
-- UTF-8 (the byte encoding `Buffer.from(<string>)` applies before
-- base64, and its inverse)
-- ──────────────────────────────────────────────────────────────────

/-- UTF-8 encoding of one scalar value. -/
def utf8EncodeChar (c : Char) : List Nat :=
  if c.toNat < 128 then [c.toNat]
  else if c.toNat < 2048 then [192 + c.toNat / 64, 128 + c.toNat % 64]
  else if c.toNat < 65536 then
    [224 + c.toNat / 4096, 128 + c.toNat / 64 % 64, 128 + c.toNat % 64]
  else
    [240 + c.toNat / 262144, 128 + c.toNat / 4096 % 64,
     128 + c.toNat / 64 % 64, 128 + c.toNat % 64]

/-- UTF-8 encoding of a string. -/
def utf8Encode : List Char → List Nat
  | [] => []
  | c :: cs => utf8EncodeChar c ++ utf8Encode cs

/-- A UTF-8 continuation byte. -/
def isCont (b : Nat) : Bool := if 128 ≤ b ∧ b < 192 then true else false

/-- UTF-8 decoding, fuelled (one unit of fuel per decoded character;
`utf8Decode` below supplies ample fuel); `none` on malformed input. -/
def utf8DecodeF : Nat → List Nat → Option (List Char)
  | 0, _ => none
  | _ + 1, [] => some []
  | fuel + 1, b :: rest =>
    if b < 128 then (utf8DecodeF fuel rest).map (fun cs => Char.ofNat b :: cs)
    else if b < 192 then none
    else if b < 224 then
      match rest with
      | b2 :: r =>
        if isCont b2 then
          (utf8DecodeF fuel r).map
            (fun cs => Char.ofNat ((b - 192) * 64 + (b2 - 128)) :: cs)
        else none
      | [] => none
    else if b < 240 then
      match rest with
      | b2 :: b3 :: r =>
        if isCont b2 ∧ isCont b3 then
          (utf8DecodeF fuel r).map
            (fun cs => Char.ofNat ((b - 224) * 4096 + (b2 - 128) * 64 +
              (b3 - 128)) :: cs)
        else none
      | _ => none
    else if b < 248 then
      match rest with
      | b2 :: b3 :: b4 :: r =>
        if isCont b2 ∧ isCont b3 ∧ isCont b4 then
          (utf8DecodeF fuel r).map
            (fun cs => Char.ofNat ((b - 240) * 262144 +
              (b2 - 128) * 4096 + (b3 - 128) * 64 + (b4 - 128)) :: cs)
        else none
      | _ => none
    else none

/-- UTF-8 decoding (a list can hold at most as many characters as
bytes, so the fuel never runs out on meaningful input). -/
def utf8Decode (bs : List Nat) : Option (List Char) :=
  utf8DecodeF (bs.length + 1) bs

/-- Every scalar value is below 0x110000. -/
theorem char_toNat_lt (c : Char) : c.toNat < 1114112 := by
  have h := c.valid
  unfold UInt32.isValidChar Nat.isValidChar at h
  rcases h with h | ⟨h1, h2⟩
  · have : c.val.toNat < 55296 := by exact_mod_cast h
    simp [Char.toNat]
    omega
  · have : c.val.toNat < 1114112 := by exact_mod_cast h2
    simp [Char.toNat]
    omega

/-- UTF-8 bytes are bytes. -/
theorem utf8EncodeChar_lt (c : Char) : ∀ b ∈ utf8EncodeChar c, b < 256 := by
  have hv := char_toNat_lt c
  unfold utf8EncodeChar
  split
  · simp; omega
  · split
    · simp; omega
    · split
      · simp
        refine ⟨by omega, by omega, by omega⟩
      · simp
        refine ⟨by omega, by omega, by omega, by omega⟩

theorem utf8Encode_lt (cs : List Char) : ∀ b ∈ utf8Encode cs, b < 256 := by
  induction cs with
  | nil => simp [utf8Encode]
  | cons c cs ih =>
    simp only [utf8Encode]
    intro b hb
    rcases List.mem_append.1 hb with h | h
    · exact utf8EncodeChar_lt c b h
    · exact ih b h

/-- One character encodes to at least one byte. -/
theorem utf8EncodeChar_length_pos (c : Char) :
    1 ≤ (utf8EncodeChar c).length := by
  unfold utf8EncodeChar
  split
  · simp
  · split
    · simp
    · split <;> simp

/-- A string never has more characters than UTF-8 bytes. -/
theorem utf8Encode_length_ge (cs : List Char) :
    cs.length ≤ (utf8Encode cs).length := by
  induction cs with
  | nil => simp [utf8Encode]
  | cons c cs ih =>
    have := utf8EncodeChar_length_pos c
    simp only [utf8Encode, List.length_append, List.length_cons]
    omega

/-- Decoding the UTF-8 bytes of one character prepended to any byte
list peels off exactly that character, spending one unit of fuel. -/
theorem utf8DecodeF_encodeChar (c : Char) (fuel : Nat) (bs : List Nat) :
    utf8DecodeF (fuel + 1) (utf8EncodeChar c ++ bs) =
      (utf8DecodeF fuel bs).map (fun cs => c :: cs) := by
  have hv := char_toNat_lt c
  have hof : Char.ofNat c.toNat = c := Char.ofNat_toNat c
  unfold utf8EncodeChar
  split
  · next h1 =>
    simp only [List.append_eq, List.cons_append, List.nil_append, utf8DecodeF, if_pos h1, hof]
  · split
    · next h1 h2 =>
      have e1 : ¬ (192 + c.toNat / 64 < 128) := by omega
      have e2 : ¬ (192 + c.toNat / 64 < 192) := by omega
      have e3 : 192 + c.toNat / 64 < 224 := by omega
      have e4 : isCont (128 + c.toNat % 64) = true := by
        unfold isCont; rw [if_pos (by omega)]
      simp only [List.append_eq, List.cons_append, List.nil_append, utf8DecodeF,
        if_neg e1, if_neg e2, if_pos e3, e4, if_pos rfl]
      have e5 : (192 + c.toNat / 64 - 192) * 64 + (128 + c.toNat % 64 - 128) =
          c.toNat := by omega
      rw [e5, hof]
      simp
    · split
      · next h1 h2 h3 =>
        have e1 : ¬ (224 + c.toNat / 4096 < 128) := by omega
        have e2 : ¬ (224 + c.toNat / 4096 < 192) := by omega
        have e3 : ¬ (224 + c.toNat / 4096 < 224) := by omega
        have e4 : 224 + c.toNat / 4096 < 240 := by omega
        have e5 : isCont (128 + c.toNat / 64 % 64) = true := by
          unfold isCont; rw [if_pos (by omega)]
        have e6 : isCont (128 + c.toNat % 64) = true := by
          unfold isCont; rw [if_pos (by omega)]
        simp only [List.append_eq, List.cons_append, List.nil_append, utf8DecodeF,
          if_neg e1, if_neg e2, if_neg e3, if_pos e4, e5, e6, and_self,
          if_pos rfl]
        have e7 : (224 + c.toNat / 4096 - 224) * 4096 +
            (128 + c.toNat / 64 % 64 - 128) * 64 +
            (128 + c.toNat % 64 - 128) = c.toNat := by omega
        rw [e7, hof]
        simp
      · next h1 h2 h3 =>
        have e1 : ¬ (240 + c.toNat / 262144 < 128) := by omega
        have e2 : ¬ (240 + c.toNat / 262144 < 192) := by omega
        have e3 : ¬ (240 + c.toNat / 262144 < 224) := by omega
        have e4 : ¬ (240 + c.toNat / 262144 < 240) := by omega
        have e5 : 240 + c.toNat / 262144 < 248 := by omega
        have e6 : isCont (128 + c.toNat / 4096 % 64) = true := by
          unfold isCont; rw [if_pos (by omega)]
        have e7 : isCont (128 + c.toNat / 64 % 64) = true := by
          unfold isCont; rw [if_pos (by omega)]
        have e8 : isCont (128 + c.toNat % 64) = true := by
          unfold isCont; rw [if_pos (by omega)]
        simp only [List.append_eq, List.cons_append, List.nil_append, utf8DecodeF,
          if_neg e1, if_neg e2, if_neg e3, if_neg e4, if_pos e5, e6, e7, e8,
          and_self, if_pos rfl]
        have e9 : (240 + c.toNat / 262144 - 240) * 262144 +
            (128 + c.toNat / 4096 % 64 - 128) * 4096 +
            (128 + c.toNat / 64 % 64 - 128) * 64 +
            (128 + c.toNat % 64 - 128) = c.toNat := by omega
        rw [e9, hof]
        simp

/-- Fuelled UTF-8 round trip. -/
theorem utf8DecodeF_roundTrip (cs : List Char) :
    ∀ fuel, cs.length < fuel →
      utf8DecodeF fuel (utf8Encode cs) = some cs := by
  induction cs with
  | nil =>
    intro fuel hf
    match fuel, hf with
    | f + 1, _ => rfl
  | cons c cs ih =>
    intro fuel hf
    match fuel, hf with
    | f + 1, hf =>
      rw [utf8Encode, utf8DecodeF_encodeChar,
        ih f (by simpa using Nat.lt_of_succ_lt_succ hf)]
      rfl

/-- UTF-8 round trip on whole strings. -/
theorem utf8_roundTrip (cs : List Char) :
    utf8Decode (utf8Encode cs) = some cs := by
  have h := utf8Encode_length_ge cs
  exact utf8DecodeF_roundTrip cs ((utf8Encode cs).length + 1) (by omega)

-- ──────────────────────────────────────────────────────────────────
-- JSON values (the `JSON.stringify` / `JSON.parse` pair of the
-- platform, modelled over exact rationals)
-- ──────────────────────────────────────────────────────────────────

mutual

inductive Json where
  | null
  | bool (b : Bool)
  | num (q : ℚ)
  | str (s : List Char)
  | arr (elems : JArray)
  | obj (members : JMembers)

inductive JArray where
  | nil
  | cons (head : Json) (tail : JArray)

inductive JMembers where
  | nil
  | cons (key : List Char) (value : Json) (rest : JMembers)

end

/-- Lowercase hexadecimal digit. -/
def hexDigitChar (n : Nat) : Char :=
  if n < 10 then Char.ofNat (48 + n) else Char.ofNat (87 + n)

/-- `JSON.stringify` escaping of one character: quote and backslash are
escaped, control characters take their shorthands (or a `\u00XX`
sequence), everything else passes through. -/
def escapeChar (c : Char) : List Char :=
  if c = '"' then ['\\', '"']
  else if c = '\\' then ['\\', '\\']
  else if c.toNat = 8 then ['\\', 'b']
  else if c.toNat = 9 then ['\\', 't']
  else if c.toNat = 10 then ['\\', 'n']
  else if c.toNat = 12 then ['\\', 'f']
  else if c.toNat = 13 then ['\\', 'r']
  else if c.toNat < 32 then
    ['\\', 'u', '0', '0', hexDigitChar (c.toNat / 16),
     hexDigitChar (c.toNat % 16)]
  else [c]

def escapeString : List Char → List Char
  | [] => []
  | c :: cs => escapeChar c ++ escapeString cs

/-- Decimal rendering of a rational.  Every number the x402 module ever
serializes is the integer protocol version 1, so only the integral case
is exercised; the non-integral rendering is a placeholder that never
reaches a wire format. -/
def ratRepr (q : ℚ) : List Char :=
  if q.den = 1 then intRepr q.num
  else intRepr q.num ++ '/' :: natRepr q.den

mutual

/-- `JSON.stringify` (no spacing, insertion order, escaped strings). -/
def jsonStringify : Json → List Char
  | .null => lc "null"
  | .bool true => lc "true"
  | .bool false => lc "false"
  | .num q => ratRepr q
  | .str s => '"' :: (escapeString s ++ ['"'])
  | .arr es => '[' :: (stringifyElems es ++ [']'])
  | .obj ms => '{' :: (stringifyMembers ms ++ ['}'])

def stringifyElems : JArray → List Char
  | .nil => []
  | .cons v .nil => jsonStringify v
  | .cons v (.cons w rest) =>
    jsonStringify v ++ ',' :: stringifyElems (.cons w rest)

def stringifyMembers : JMembers → List Char
  | .nil => []
  | .cons k v .nil =>
    '"' :: (escapeString k ++ '"' :: ':' :: jsonStringify v)
  | .cons k v (.cons k2 v2 rest) =>
    '"' :: (escapeString k ++ '"' :: ':' :: jsonStringify v) ++
      ',' :: stringifyMembers (.cons k2 v2 rest)

end

-- ── JSON parsing ──────────────────────────────────────────────────

/-- JSON insignificant whitespace. -/
def isJsonWs (c : Char) : Bool :=
  c = ' ' || c = '\t' || c = '\n' || c = '\r'

def skipWs (cs : List Char) : List Char := cs.dropWhile isJsonWs

def hexVal (c : Char) : Option Nat :=
  if '0' ≤ c ∧ c ≤ '9' then some (c.toNat - 48)
  else if 'a' ≤ c ∧ c ≤ 'f' then some (c.toNat - 97 + 10)
  else if 'A' ≤ c ∧ c ≤ 'F' then some (c.toNat - 65 + 10)
  else none

/-- JSON string-body parser.  Raw control characters are rejected and
the full escape set is accepted.  `\uXXXX` maps through `Char.ofNat`
(scalar values; surrogate halves of JavaScript UTF-16 strings have no
Lean counterpart and fall back to the null scalar — no escape the
serializer emits is affected). -/
def parseString : List Char → Option (List Char × List Char)
  | [] => none
  | '"' :: rest => some ([], rest)
  | '\\' :: 'u' :: h1 :: h2 :: h3 :: h4 :: rest3 =>
    match hexVal h1, hexVal h2, hexVal h3, hexVal h4 with
    | some v1, some v2, some v3, some v4 =>
      (parseString rest3).map
        (fun p => (Char.ofNat (v1 * 4096 + v2 * 256 + v3 * 16 + v4) :: p.1,
          p.2))
    | _, _, _, _ => none
  | '\\' :: e :: rest2 =>
    if e = '"' then (parseString rest2).map (fun p => ('"' :: p.1, p.2))
    else if e = '\\' then
      (parseString rest2).map (fun p => ('\\' :: p.1, p.2))
    else if e = '/' then (parseString rest2).map (fun p => ('/' :: p.1, p.2))
    else if e = 'b' then
      (parseString rest2).map (fun p => (Char.ofNat 8 :: p.1, p.2))
    else if e = 'f' then
      (parseString rest2).map (fun p => (Char.ofNat 12 :: p.1, p.2))
    else if e = 'n' then
      (parseString rest2).map (fun p => ('\n' :: p.1, p.2))
    else if e = 'r' then
      (parseString rest2).map (fun p => (Char.ofNat 13 :: p.1, p.2))
    else if e = 't' then
      (parseString rest2).map (fun p => ('\t' :: p.1, p.2))
    else none
  | ['\\'] => none
  | c :: rest =>
    if c.toNat < 32 then none
    else (parseString rest).map (fun p => (c :: p.1, p.2))

/-- Decimal digits to a natural number. -/
def digitsToNat (ds : List Char) : Nat :=
  ds.foldl (fun a c => a * 10 + (c.toNat - 48)) 0

def isDigit (c : Char) : Bool := '0' ≤ c ∧ c ≤ '9'

/-- The fractional part of a JSON number, as (digits value, digit
count, rest). -/
def parseFracPart (cs : List Char) : Nat × Nat × List Char :=
  match cs with
  | '.' :: r =>
    (digitsToNat (r.takeWhile isDigit), (r.takeWhile isDigit).length,
     r.dropWhile isDigit)
  | _ => (0, 0, cs)

def parseSignedDigits (cs : List Char) : Int × List Char :=
  match cs with
  | '-' :: r =>
    (-(digitsToNat (r.takeWhile isDigit) : Int), r.dropWhile isDigit)
  | '+' :: r =>
    ((digitsToNat (r.takeWhile isDigit) : Int), r.dropWhile isDigit)
  | _ => ((digitsToNat (cs.takeWhile isDigit) : Int), cs.dropWhile isDigit)

/-- The exponent part of a JSON number (0 when absent). -/
def parseExponentPart (cs : List Char) : Int × List Char :=
  match cs with
  | 'e' :: r => parseSignedDigits r
  | 'E' :: r => parseSignedDigits r
  | _ => (0, cs)

/-- JSON number parser over exact rationals. -/
def parseNumber (cs : List Char) : Option (ℚ × List Char) :=
  let neg : Bool := match cs with | '-' :: _ => true | _ => false
  let cs1 : List Char := match cs with | '-' :: r => r | _ => cs
  let ds := cs1.takeWhile isDigit
  if ds.isEmpty then none
  else
    let cs2 := cs1.dropWhile isDigit
    let fr := parseFracPart cs2
    let ex := parseExponentPart fr.2.2
    let mag : ℚ :=
      ((digitsToNat ds : ℚ) + (fr.1 : ℚ) / (10 : ℚ) ^ fr.2.1) *
        (10 : ℚ) ^ ex.1
    some (if neg then -mag else mag, ex.2)

mutual

/-- JSON value parser, fuelled (ample fuel is supplied at the top; each
recursion strictly consumes input, so any fuel above the input length
behaves identically). -/
def parseValue : Nat → List Char → Option (Json × List Char)
  | 0, _ => none
  | fuel + 1, cs =>
    match skipWs cs with
    | '"' :: rest =>
      (parseString rest).map (fun p => (Json.str p.1, p.2))
    | '{' :: rest => (parseMembers fuel rest).map (fun p => (Json.obj p.1, p.2))
    | '[' :: rest => (parseElems fuel rest).map (fun p => (Json.arr p.1, p.2))
    | 't' :: 'r' :: 'u' :: 'e' :: rest => some (Json.bool true, rest)
    | 'f' :: 'a' :: 'l' :: 's' :: 'e' :: rest => some (Json.bool false, rest)
    | 'n' :: 'u' :: 'l' :: 'l' :: rest => some (Json.null, rest)
    | cs2 => (parseNumber cs2).map (fun p => (Json.num p.1, p.2))

def parseElems : Nat → List Char → Option (JArray × List Char)
  | 0, _ => none
  | fuel + 1, cs =>
    match skipWs cs with
    | ']' :: rest => some (JArray.nil, rest)
    | cs2 =>
      match parseValue fuel cs2 with
      | some (v, r1) =>
        match skipWs r1 with
        | ',' :: r2 =>
          (parseElems fuel r2).map (fun p => (JArray.cons v p.1, p.2))
        | ']' :: r2 => some (JArray.cons v JArray.nil, r2)
        | _ => none
      | none => none

def parseMembers : Nat → List Char → Option (JMembers × List Char)
  | 0, _ => none
  | fuel + 1, cs =>
    match skipWs cs with
    | '}' :: rest => some (JMembers.nil, rest)
    | '"' :: rest =>
      match parseString rest with
      | some (k, r1) =>
        match skipWs r1 with
        | ':' :: r2 =>
          match parseValue fuel r2 with
          | some (v, r3) =>
            match skipWs r3 with
            | ',' :: r4 =>
              (parseMembers fuel r4).map
                (fun p => (JMembers.cons k v p.1, p.2))
            | '}' :: r4 => some (JMembers.cons k v JMembers.nil, r4)
            | _ => none
          | none => none
        | _ => none
      | none => none
    | _ => none

end

/-- `JSON.parse`: parse one value, allow trailing whitespace only.
The fuel is ample: the parsers never exhaust any fuel above the input
length. -/
def jsonParse (cs : List Char) : Option Json :=
  match parseValue (cs.length + 8) cs with
  | some (j, rest) => if (skipWs rest).isEmpty then some j else none
  | none => none

-- ── String round trip ─────────────────────────────────────────────

theorem hexVal_hexDigitChar_fin :
    ∀ n : Fin 16, hexVal (hexDigitChar n.val) = some n.val := by decide

theorem hexVal_hexDigitChar (n : Nat) (h : n < 16) :
    hexVal (hexDigitChar n) = some n :=
  hexVal_hexDigitChar_fin ⟨n, h⟩

theorem escapeChar_length_pos (c : Char) : 1 ≤ (escapeChar c).length := by
  unfold escapeChar
  split_ifs <;> simp

theorem escapeString_length_ge (s : List Char) :
    s.length ≤ (escapeString s).length := by
  induction s with
  | nil => simp [escapeString]
  | cons c s ih =>
    have := escapeChar_length_pos c
    simp only [escapeString, List.length_append, List.length_cons]
    omega

/-- Parsing the escaped form of `s` followed by a closing quote
recovers `s` exactly. -/
theorem parseString_escape (s : List Char) : ∀ rest,
    parseString (escapeString s ++ '"' :: rest) = some (s, rest) := by
  induction s with
  | nil =>
    intro rest
    simp [escapeString, parseString]
  | cons c s ih =>
    intro rest
    have ih2 := ih rest
    have hof := Char.ofNat_toNat c
    rw [escapeString, List.append_assoc]
    by_cases h1 : c = '"'
    · subst h1
      simp [escapeChar, parseString, ih2]
    · by_cases h2 : c = '\\'
      · subst h2
        simp [escapeChar, parseString, ih2]
      · by_cases h3 : c.toNat = 8
        · rw [h3] at hof
          simp [escapeChar, h1, h2, h3, parseString, ih2, hof] <;>
            exact hof
        · by_cases h4 : c.toNat = 9
          · rw [h4] at hof
            have hc : '\t' = c := by rw [← hof]
            simp [escapeChar, h1, h2, h3, h4, parseString, ih2, hc] <;>
              exact hc
          · by_cases h5 : c.toNat = 10
            · rw [h5] at hof
              have hc : '\n' = c := by rw [← hof]
              simp [escapeChar, h1, h2, h3, h4, h5, parseString, ih2,
                hc] <;> exact hc
            · by_cases h6 : c.toNat = 12
              · rw [h6] at hof
                simp [escapeChar, h1, h2, h3, h4, h5, h6, parseString,
                  ih2, hof] <;> exact hof
              · by_cases h7 : c.toNat = 13
                · rw [h7] at hof
                  simp [escapeChar, h1, h2, h3, h4, h5, h6, h7,
                    parseString, ih2, hof] <;> exact hof
                · by_cases h8 : c.toNat < 32
                  · have hv1 : c.toNat / 16 < 16 := by omega
                    have hv2 : c.toNat % 16 < 16 := by omega
                    have hx1 := hexVal_hexDigitChar _ hv1
                    have hx2 := hexVal_hexDigitChar _ hv2
                    have hvv : 0 * 4096 + 0 * 256 + c.toNat / 16 * 16 +
                        c.toNat % 16 = c.toNat := by omega
                    have hvv2 : c.toNat / 16 * 16 + c.toNat % 16 =
                        c.toNat := by omega
                    have hns : ¬ (55296 ≤ c.toNat ∧ c.toNat < 56320) := by
                      omega
                    have h00 : hexVal '0' = some 0 := by decide
                    simp [escapeChar, h1, h2, h3, h4, h5, h6, h7, h8,
                      parseString, h00, hx1, hx2, hvv, hvv2, hns, ih2, hof]
                  · simp [escapeChar, h1, h2, h3, h4, h5, h6, h7, h8,
                      parseString, ih2]

-- ──────────────────────────────────────────────────────────────────
-- The X-Payment header (buildXPaymentHeader of src/src/conway/x402.ts)
-- ──────────────────────────────────────────────────────────────────

/-- The `X402_NETWORK` record of canonical x402 network strings. -/
def X402_NETWORK (c : List Char) : Option (List Char) :=
  if c = lc "mainnet-beta" then some (lc "solana-mainnet")
  else if c = lc "devnet" then some (lc "solana-devnet")
  else if c = lc "testnet" then some (lc "solana-testnet")
  else none

/-- `X402_NETWORK[resolvedCluster] || "solana-devnet"`. -/
def x402NetworkOf (resolved : List Char) : List Char :=
  match X402_NETWORK resolved with
  | some n => n
  | none => lc "solana-devnet"

/-- The header payload object for a given serialized transaction and
x402 network string:
`{x402Version: 1, scheme: "exact", network, payload: {serializedTransaction}}`. -/
def x402PayloadObj (serializedTransaction net : List Char) : Json :=
  .obj (.cons (lc "x402Version") (.num 1)
    (.cons (lc "scheme") (.str (lc "exact"))
      (.cons (lc "network") (.str net)
        (.cons (lc "payload")
          (.obj (.cons (lc "serializedTransaction")
            (.str serializedTransaction) .nil))
          .nil))))

/-- The payload object built by `buildXPaymentHeader`. -/
def xPaymentPayloadJson (serializedTransaction cluster : List Char) : Json :=
  x402PayloadObj serializedTransaction
    (x402NetworkOf (resolveCluster cluster))

/-- `buildXPaymentHeader`: base64 of the UTF-8 bytes of the JSON
serialization of the payload object. -/
def buildXPaymentHeader (serializedTransaction cluster : List Char) :
    List Char :=
  base64Encode (utf8Encode
    (jsonStringify (xPaymentPayloadJson serializedTransaction cluster)))

/-- The decoding side of the claim: base64-decode the header value,
read the bytes as UTF-8 text and JSON-parse it. -/
def decodeXPaymentHeader (header : List Char) : Option Json :=
  match base64Decode header with
  | some bytes =>
    match utf8Decode bytes with
    | some text => jsonParse text
    | none => none
  | none => none

/-- Object member lookup (later duplicates win, as in `JSON.parse`). -/
def jLookup : JMembers → List Char → Option Json
  | .nil, _ => none
  | .cons k v rest, key =>
    match jLookup rest key with
    | some r => some r
    | none => if k = key then some v else none

theorem ratRepr_one : ratRepr 1 = ['1'] := by decide


theorem parseNumber_one (rest : List Char) :
    parseNumber ('1' :: ',' :: rest) = some (1, ',' :: rest) := by
  unfold parseNumber
  simp [List.takeWhile, List.dropWhile, isDigit, parseFracPart,
    parseExponentPart, digitsToNat]

set_option maxHeartbeats 2000000 in
/-- Parsing the serialized payload object recovers it exactly (any
serialized transaction, any network string, any ample fuel). -/
theorem parseValue_payload (s net : List Char) (k : Nat) :
    parseValue (k + 8) (jsonStringify (x402PayloadObj s net)) =
      some (x402PayloadObj s net, []) := by
  simp [x402PayloadObj, jsonStringify, stringifyMembers, ratRepr_one,
    parseValue, parseMembers, skipWs, List.dropWhile, isJsonWs,
    parseString_escape, parseNumber_one]

theorem jsonParse_payload (s net : List Char) :
    jsonParse (jsonStringify (x402PayloadObj s net)) =
      some (x402PayloadObj s net) := by
  unfold jsonParse
  rw [parseValue_payload]
  simp [skipWs]

/-- Base64-decoding and UTF-8-decoding the header value, then JSON
parsing, recovers the payload object exactly. -/
theorem decodeXPaymentHeader_build (s c : List Char) :
    decodeXPaymentHeader (buildXPaymentHeader s c) =
      some (xPaymentPayloadJson s c) := by
  unfold decodeXPaymentHeader buildXPaymentHeader xPaymentPayloadJson
  rw [base64_roundTrip _ (utf8Encode_lt _)]
  simp [utf8_roundTrip, jsonParse_payload]

-- ──────────────────────────────────────────────────────────────────
-- C7: X-Payment header round trip
-- ──────────────────────────────────────────────────────────────────

/-- C7: for every serialized-transaction string and every cluster
designator, base64-decoding and JSON-parsing the value produced by
`buildXPaymentHeader` recovers an object with `x402Version` 1, scheme
"exact", and the original serialized transaction unchanged under
`payload.serializedTransaction`. -/
theorem buildXPaymentHeader_roundTrip (s c : List Char) :
    ∃ ms, decodeXPaymentHeader (buildXPaymentHeader s c) =
        some (.obj ms) ∧
      jLookup ms (lc "x402Version") = some (.num 1) ∧
      jLookup ms (lc "scheme") = some (.str (lc "exact")) ∧
      ∃ inner, jLookup ms (lc "payload") = some (.obj inner) ∧
        jLookup inner (lc "serializedTransaction") = some (.str s) := by
  have d1 : (lc "payload" = lc "x402Version") = False := by decide
  have d2 : (lc "network" = lc "x402Version") = False := by decide
  have d3 : (lc "scheme" = lc "x402Version") = False := by decide
  have d4 : (lc "payload" = lc "scheme") = False := by decide
  have d5 : (lc "network" = lc "scheme") = False := by decide
  have d6 : (lc "network" = lc "payload") = False := by decide
  refine ⟨_, decodeXPaymentHeader_build s c, ?_, ?_, ?_⟩ <;>
    simp [xPaymentPayloadJson, x402PayloadObj, jLookup, d1, d2, d3, d4, d5,
      d6]

-- ──────────────────────────────────────────────────────────────────
-- Payment requirements parsing (src/src/conway/x402.ts)
-- ──────────────────────────────────────────────────────────────────

/-- The payment requirements object of the 402 body. -/
structure SolanaPaymentRequirements where
  recipientWallet : List Char
  tokenAccount : List Char
  mint : List Char
  amount : ℚ
  amountUSDC : ℚ
  cluster : List Char
  message : Option (List Char)
deriving DecidableEq, Repr

/-- A member that is a string (JavaScript `typeof x === "string"`). -/
def jStr : Option Json → Option (List Char)
  | some (.str s) => some s
  | _ => none

/-- A member that is a number. -/
def jNum : Option Json → Option ℚ
  | some (.num q) => some q
  | _ => none

/-- Field extraction from a candidate payment object.  Mirrors the
source: `recipientWallet` falls back to `recipient`, `cluster` falls
back to `network` and then "devnet", missing or empty (falsy) required
fields make the whole object invalid. -/
def parseReqFields (p : JMembers) : Option SolanaPaymentRequirements :=
  match jStr (jLookup p (lc "tokenAccount")), jStr (jLookup p (lc "mint")),
      jNum (jLookup p (lc "amount")),
      (match jStr (jLookup p (lc "recipientWallet")) with
       | some s => some s
       | none => jStr (jLookup p (lc "recipient"))) with
  | some ta, some mi, some am, some rw2 =>
    if ta.isEmpty || mi.isEmpty || rw2.isEmpty then none
    else
      some (SolanaPaymentRequirements.mk rw2 ta mi am
        (match jNum (jLookup p (lc "amountUSDC")) with
         | some q => q
         | none => am / 1000000)
        (match jStr (jLookup p (lc "cluster")) with
         | some s => s
         | none =>
           match jStr (jLookup p (lc "network")) with
           | some s => s
           | none => lc "devnet")
        (jStr (jLookup p (lc "message"))))
  | _, _, _, _ => none

/-- `parsePaymentRequirements`: handles both the nested
`{payment: {...}}` shape and the flat shape.  A non-object body (or a
failed parse, passed as `none`) is invalid; a `payment` member that is
an array has none of the required fields, hence is invalid too. -/
def parsePaymentRequirements (body : Option Json) :
    Option SolanaPaymentRequirements :=
  match body with
  | some (.obj b) =>
    match jLookup b (lc "payment") with
    | some (.obj p) => parseReqFields p
    | some (.arr _) => none
    | _ => parseReqFields b
  | _ => none

-- ──────────────────────────────────────────────────────────────────
-- x402Fetch (src/src/conway/x402.ts)
-- ──────────────────────────────────────────────────────────────────

/-- External calls of the 402 flow.  `koraBuildCall402`, `koraSignCall`,
`ataCreateCall402` and the fetches are network calls; the decode
attempts are recorded local steps. -/
inductive X402Event where
  | initialFetchCall
  | koraBuildCall402
  | versionedDecodeAttempt402 (ok : Bool)
  | legacyDecodeAttempt402 (ok : Bool)
  | koraSignCall
  | ataCreateCall402
  | blockhashCall
  | paidFetchCall
deriving DecidableEq, Repr

/-- An HTTP response as consumed by the flow: status plus body text. -/
structure HttpResponse where
  status : Nat
  bodyText : List Char
deriving DecidableEq, Repr

/-- Environment of external outcomes for `x402Fetch`. -/
structure X402Env where
  /-- The initial `fetch` of the resource. -/
  initialFetch : Except (List Char) HttpResponse
  /-- `kora.transferTransaction`, keyed by the rounded raw amount. -/
  koraBuild : Int → Except (List Char) (List Char)
  /-- Versioned decode + sign + serialize of the returned bytes. -/
  versionedDecode : List Char → Except (List Char) (List Char)
  /-- Legacy decode + partial sign + serialize of the returned bytes. -/
  legacyDecode : List Char → Except (List Char) (List Char)
  /-- `kora.signTransaction` (sign-only, no broadcast). -/
  koraSign : List Char → Except (List Char) (List Char)
  /-- `getOrCreateAssociatedTokenAccount` on the direct builder. -/
  ataCreate : Except (List Char) (List Char)
  /-- `getLatestBlockhash` on the direct builder. -/
  getBlockhash : Except (List Char) (List Char)
  /-- Building, signing and serializing the direct transaction. -/
  directBuildSign : Except (List Char) (List Char)
  /-- The retry `fetch`, keyed by the X-Payment header value. -/
  paidFetch : List Char → Except (List Char) HttpResponse

/-- The result shape of `x402Fetch`. -/
structure X402PaymentResult where
  success : Bool
  response : Option (Json ⊕ List Char) := none
  error : Option (List Char) := none
  status : Option Nat := none

/-- `resp.json().catch(() => resp.text())`. -/
def responseData (r : HttpResponse) : Json ⊕ List Char :=
  match jsonParse r.bodyText with
  | some j => .inl j
  | none => .inr r.bodyText

/-- `Math.round` (half away from zero toward positive infinity). -/
def jsRound (q : ℚ) : Int := ⌊q + 1/2⌋

/-- Sign-only finalization of the Kora-built payment transaction. -/
def x402SignOnly (env : X402Env) (partiallySigned : List Char)
    (evs : List X402Event) :
    Except (List Char) (List Char) × List X402Event :=
  match env.koraSign partiallySigned with
  | .ok s => (.ok s, evs ++ [.koraSignCall])
  | .error m => (.error m, evs ++ [.koraSignCall])

/-- `buildPaymentTransactionViaKora`: remote build, decode (versioned
first), sign-only via Kora; returns the fully signed transaction. -/
def buildPaymentTransactionViaKora (env : X402Env)
    (reqs : SolanaPaymentRequirements) :
    Except (List Char) (List Char) × List X402Event :=
  match env.koraBuild (jsRound reqs.amount) with
  | .error m => (.error m, [.koraBuildCall402])
  | .ok tx =>
    match env.versionedDecode tx with
    | .ok ps =>
      x402SignOnly env ps
        [.koraBuildCall402, .versionedDecodeAttempt402 true]
    | .error _ =>
      match env.legacyDecode tx with
      | .ok ps =>
        x402SignOnly env ps
          [.koraBuildCall402, .versionedDecodeAttempt402 false,
           .legacyDecodeAttempt402 true]
      | .error m =>
        (.error m,
         [.koraBuildCall402, .versionedDecodeAttempt402 false,
          .legacyDecodeAttempt402 false])

/-- `buildPaymentTransaction`: Kora path when a client is supplied,
direct SOL-funded construction otherwise. -/
def buildPaymentTransaction (env : X402Env)
    (reqs : SolanaPaymentRequirements) (hasKora : Bool) :
    Except (List Char) (List Char) × List X402Event :=
  if hasKora then buildPaymentTransactionViaKora env reqs
  else
    match env.ataCreate with
    | .error m => (.error m, [.ataCreateCall402])
    | .ok _ =>
      match env.getBlockhash with
      | .error m => (.error m, [.ataCreateCall402, .blockhashCall])
      | .ok _ =>
        match env.directBuildSign with
        | .ok s => (.ok s, [.ataCreateCall402, .blockhashCall])
        | .error m => (.error m, [.ataCreateCall402, .blockhashCall])

/-- `x402Fetch`: initial request; on a 402, parse requirements, build
the payment transaction, retry once with the X-Payment header.  The
whole body sits in a try/catch, so fetch rejections become
`success := false` results rather than raised exceptions. -/
def x402Fetch (env : X402Env) (hasKora : Bool) :
    X402PaymentResult × List X402Event :=
  match env.initialFetch with
  | .error m => ({ success := false, error := some m }, [.initialFetchCall])
  | .ok resp =>
    if resp.status ≠ 402 then
      ({ success := respOk resp.status,
         response := some (responseData resp),
         status := some resp.status }, [.initialFetchCall])
    else
      match parsePaymentRequirements (jsonParse resp.bodyText) with
      | none =>
        ({ success := false,
           error := some
             (lc "Could not parse x402 payment requirements from 402 response"),
           status := some 402 }, [.initialFetchCall])
      | some reqs =>
        match buildPaymentTransaction env reqs hasKora with
        | (.error m, bevs) =>
          ({ success := false,
             error := some
               (lc "Failed to build x402 payment transaction: " ++ m),
             status := some 402 }, .initialFetchCall :: bevs)
        | (.ok st, bevs) =>
          match env.paidFetch
              (buildXPaymentHeader st (resolveCluster reqs.cluster)) with
          | .error m =>
            ({ success := false, error := some m },
             .initialFetchCall :: bevs ++ [.paidFetchCall])
          | .ok presp =>
            ({ success := respOk presp.status,
               response := some (responseData presp),
               status := some presp.status },
             .initialFetchCall :: bevs ++ [.paidFetchCall])

-- ──────────────────────────────────────────────────────────────────
-- C5: unparseable 402 body aborts before any build
-- ──────────────────────────────────────────────────────────────────

/-- C5: when the initial response is a 402 whose body text is not
parseable JSON, `x402Fetch` returns `{success: false, status: 402}`
(with the parse-error message) and its trace holds only the initial
fetch — no transaction-build operation on either path and no second
request. -/
theorem x402Fetch_unparseableBody (env : X402Env) (hasKora : Bool)
    (resp : HttpResponse)
    (hfetch : env.initialFetch = .ok resp)
    (hstatus : resp.status = 402)
    (hparse : jsonParse resp.bodyText = none) :
    x402Fetch env hasKora =
      ({ success := false,
         error := some
           (lc "Could not parse x402 payment requirements from 402 response"),
         status := some 402 }, [.initialFetchCall]) := by
  simp [x402Fetch, hfetch, hstatus, hparse, parsePaymentRequirements]

/-- An environment whose initial response is a 402 with a non-JSON
body, with every later call resolving (to certify none is reached). -/
def x402EnvBadBody : X402Env where
  initialFetch := .ok { status := 402, bodyText := lc "%" }
  koraBuild := fun _ => .ok (lc "tx")
  versionedDecode := fun _ => .ok (lc "ps")
  legacyDecode := fun _ => .ok (lc "ps")
  koraSign := fun _ => .ok (lc "signed")
  ataCreate := .ok (lc "ata")
  getBlockhash := .ok (lc "hash")
  directBuildSign := .ok (lc "signed")
  paidFetch := fun _ => .ok { status := 200, bodyText := lc "%" }

/-- Witness for C5 at the concrete body "%". -/
theorem x402Fetch_unparseableBody_witness :
    jsonParse (lc "%") = none ∧
    x402Fetch x402EnvBadBody true =
      ({ success := false,
         error := some
           (lc "Could not parse x402 payment requirements from 402 response"),
         status := some 402 }, [.initialFetchCall]) :=
  ⟨rfl, x402Fetch_unparseableBody x402EnvBadBody true
    { status := 402, bodyText := lc "%" } rfl rfl rfl⟩

-- ──────────────────────────────────────────────────────────────────
-- C9: x402Fetch is total and classifies every failure
-- ──────────────────────────────────────────────────────────────────

/-- C9: `x402Fetch` always returns a result (rejections of either fetch
and any build failure are caught, never re-raised), a successful result
carries a 2xx final status, and every unsuccessful result carries an
error message or a non-2xx final status. -/
theorem x402Fetch_total (env : X402Env) (hasKora : Bool) :
    ((x402Fetch env hasKora).1.success = true →
      ∃ st, (x402Fetch env hasKora).1.status = some st ∧
        respOk st = true) ∧
    ((x402Fetch env hasKora).1.success = false →
      (x402Fetch env hasKora).1.error.isSome = true ∨
      ∃ st, (x402Fetch env hasKora).1.status = some st ∧
        respOk st = false) := by
  cases hf : env.initialFetch with
  | error m => simp [x402Fetch, hf]
  | ok resp =>
    by_cases h402 : resp.status = 402
    · cases hreq : parsePaymentRequirements (jsonParse resp.bodyText) with
      | none => simp [x402Fetch, hf, h402, hreq]
      | some reqs =>
        cases hb : buildPaymentTransaction env reqs hasKora with
        | mk bres bevs =>
          cases bres with
          | error m => simp [x402Fetch, hf, h402, hreq, hb]
          | ok st =>
            cases hp : env.paidFetch
                (buildXPaymentHeader st (resolveCluster reqs.cluster)) with
            | error m => simp [x402Fetch, hf, h402, hreq, hb, hp]
            | ok presp =>
              cases hok : respOk presp.status <;>
                simp [x402Fetch, hf, h402, hreq, hb, hp, hok]
    · cases hok : respOk resp.status <;>
        simp [x402Fetch, hf, h402, hok]

/-- Witness for C9 on a concrete run (non-402 success). -/
theorem x402Fetch_total_witness :
    (x402Fetch x402EnvBadBody true).1.success = false ∧
    ((x402Fetch x402EnvBadBody true).1.error.isSome = true ∨
      ∃ st, (x402Fetch x402EnvBadBody true).1.status = some st ∧
        respOk st = false) := by
  have h := (x402Fetch_total x402EnvBadBody true).2
  have hs : (x402Fetch x402EnvBadBody true).1.success = false := rfl
  exact ⟨hs, h hs⟩
